import Mathlib

/-!
# WhatsApp broadcast gateway: connection lifecycle and broadcast dispatch

A shallow embedding of `backend/index.js` (the hardened server), of the send loop of
`broadcast.js` and of the connection set-up of the minimal `index.js`.

Conventions of the embedding.

* The process-wide variables `sockInstance`, `currentQRCode` and `whatsappStarted` are the
  fields of `Backend.Conn`; the extra field `socketsMade` counts the calls of `makeWASocket`
  and a socket handle is the number of the call that made it.
* `users.json` and `logs.json` are keyed documents: functions from the email to the stored
  value. Reading and writing them is assumed to succeed.
* Request bodies are JSON values (`JVal`), so that `!message`, `Array.isArray(numbers)` and
  `num.includes(...)` are evaluated the way JavaScript evaluates them.
* The protocol client is external. `sock.sendMessage` is a parameter `sendOk : Nat → Bool`
  telling whether the k-th call made by a request returns (`true`) or throws (`false`);
  `DisconnectReason.loggedOut` is a parameter `loggedOut : Nat`; `bcrypt.compare` is a
  parameter `compare`. `useMultiFileAuthState` and `fetchLatestBaileysVersion` are assumed
  to return, and `startWhatsApp` is taken as one step.
* Times are milliseconds since the epoch, as `Date` compares them.
* `users.json` is read as a map on emails that are own keys or absent; an email that names
  an inherited property of a plain object (`constructor`, `__proto__`) is outside the model.
* A JSON number is an integer (`JVal.num`); only its being zero or not is used by the
  handlers, and its text only inside an address built from an array recipient.
-/

namespace Backend

/-! ## JSON values -/

/-- JSON value of a parsed request body; `undefined` is an absent field and `obj` a plain
object, whose fields the server never reads. -/
inductive JVal where
  | undefined : JVal
  | null : JVal
  | bool (b : Bool) : JVal
  | num (n : Int) : JVal
  | str (s : String) : JVal
  | arr (xs : List JVal) : JVal
  | obj : JVal

/-- JavaScript truthiness, as tested by `!message`. -/
def JVal.truthy : JVal → Bool
  | .undefined => false
  | .null => false
  | .bool b => b
  | .num n => n != 0
  | .str s => s != ""
  | .arr _ => true
  | .obj => true

/-- The test `Array.isArray(v)`. -/
def JVal.isArray : JVal → Bool
  | .arr _ => true
  | _ => false

/-- The elements of an array value (no elements for any other value). -/
def JVal.items : JVal → List JVal
  | .arr xs => xs
  | _ => []

/-- Whether the characters `pat` start the characters `s`. -/
def startsWith : List Char → List Char → Bool
  | [], _ => true
  | _ :: _, [] => false
  | p :: ps, c :: cs => p == c && startsWith ps cs

/-- Whether `pat` occurs in `s` as a contiguous run. -/
def occursIn (pat : List Char) : List Char → Bool
  | [] => startsWith pat []
  | c :: cs => startsWith pat (c :: cs) || occursIn pat cs

/-- The method `String.prototype.includes`. -/
def includes (s pat : String) : Bool :=
  occursIn pat.toList s.toList

/-- The domain suffix of a protocol address. -/
def suffix : String := "@s.whatsapp.net"

/-- Strict equality of a JSON value with a string, the comparison made by
`Array.prototype.includes` when it looks for a string. -/
def JVal.isStr (pat : String) : JVal → Bool
  | .str s => s == pat
  | _ => false

mutual
/-- String conversion of a value inside a template literal. -/
def JVal.toStr : JVal → String
  | .undefined => "undefined"
  | .null => "null"
  | .bool b => if b then "true" else "false"
  | .num n => toString n
  | .str s => s
  | .arr xs => JVal.join xs
  | .obj => "[object Object]"
/-- The method `Array.prototype.join` with the comma separator: `null` and `undefined`
elements are rendered empty. -/
def JVal.join : List JVal → String
  | [] => ""
  | [.undefined] => ""
  | [.null] => ""
  | [x] => JVal.toStr x
  | .undefined :: y :: rest => "," ++ JVal.join (y :: rest)
  | .null :: y :: rest => "," ++ JVal.join (y :: rest)
  | x :: y :: rest => JVal.toStr x ++ "," ++ JVal.join (y :: rest)
end

/-! ## Responses -/

/-- Body of a JSON response. -/
inductive Body where
  | error (msg : String) : Body
  | success : Body
  | sent (sentTo : Nat) : Body
  | message (msg : String) : Body
  | qr (code : String) : Body
deriving DecidableEq, Repr

/-- What the handler answers: a JSON response with its status, or no answer of its own
when it throws outside of any `try` (the promise of the `async` handler rejects: Express 4
leaves the request unanswered, Express 5 hands the error to its default error handler). -/
inductive Response where
  | json (status : Nat) (body : Body) : Response
  | unhandled : Response
deriving DecidableEq, Repr

/-! ## User and session directory -/

/-- One record of `users.json`, as `/register` writes it. -/
structure Account where
  email : String
  phone : String
  password : String
  isActive : Bool
  sessionStart : Int
  sessionExpires : Int
deriving DecidableEq, Repr

/-- The document `users.json`. -/
abbrev Users := String → Option Account

/-- The assignment `users[email] = user` followed by `saveUsers(users)`. -/
def saveUser (users : Users) (email : String) (user : Account) : Users :=
  fun e => if e = email then some user else users e

/-- Result of `/login`: the stored users, the email held by `req.session.user` and the
response. -/
structure LoginResult where
  users : Users
  session : Option String
  response : Response

/-- The handler of `POST /login`. -/
def login (compare : String → String → Bool) (users : Users) (session : Option String)
    (email password : String) (now : Int) : LoginResult :=
  match users email with
  | none => ⟨users, session, .json 401 (.error "Invalid email or password")⟩
  | some user =>
    if !compare password user.password then
      ⟨users, session, .json 401 (.error "Invalid email or password")⟩
    else if !user.isActive || decide (now > user.sessionExpires) then
      ⟨saveUser users email { user with isActive := false }, session,
        .json 403 (.error "Subscription expired. Please renew.")⟩
    else
      ⟨users, some email, .json 200 .success⟩

/-- The middleware `requireAuth`: `none` when it calls `next()`, otherwise the response
it ends the request with. -/
def requireAuth (users : Users) (session : Option String) (now : Int) : Option Response :=
  match session with
  | none => some (.json 401 (.error "Not authenticated"))
  | some email =>
    match users email with
    | none => some (.json 403 (.error "Session expired or deactivated"))
    | some user =>
      if !user.isActive || decide (user.sessionExpires < now) then
        some (.json 403 (.error "Session expired or deactivated"))
      else none

/-! ## Connection manager -/

/-- The process-wide connection variables, with the count of `makeWASocket` calls. -/
structure Conn where
  sockInstance : Option Nat
  currentQRCode : Option String
  whatsappStarted : Bool
  socketsMade : Nat
deriving DecidableEq, Repr

/-- The variables when the process starts. -/
def Conn.init : Conn :=
  { sockInstance := none, currentQRCode := none, whatsappStarted := false, socketsMade := 0 }

/-- The function `startWhatsApp`: returns at once when `whatsappStarted` is set, otherwise
sets it and stores a new socket in `sockInstance`. -/
def startWhatsApp (c : Conn) : Conn :=
  if c.whatsappStarted then c
  else
    { c with
      whatsappStarted := true
      sockInstance := some c.socketsMade
      socketsMade := c.socketsMade + 1 }

/-- The field `connection` of an update. -/
inductive WAConnectionState where
  | connecting : WAConnectionState
  | opened : WAConnectionState
  | close : WAConnectionState
deriving DecidableEq, Repr

/-- A `connection.update` event: `statusCode` is
`lastDisconnect?.error?.output?.statusCode`. -/
structure Update where
  connection : Option WAConnectionState
  qr : Option String
  statusCode : Option Nat
deriving DecidableEq, Repr

/-- The test `if (qr)` and `!currentQRCode`: a present, non-empty string. -/
def truthyStr : Option String → Bool
  | none => false
  | some s => s != ""

/-- The consumer of `connection.update` registered by `startWhatsApp`. -/
def onConnectionUpdate (loggedOut : Nat) (c : Conn) (update : Update) : Conn :=
  let c1 := if truthyStr update.qr then { c with currentQRCode := update.qr } else c
  let c2 :=
    if update.connection = some .close then
      if update.statusCode ≠ some loggedOut then startWhatsApp c1
      else { c1 with currentQRCode := none, whatsappStarted := false }
    else c1
  if update.connection = some .opened then { c2 with currentQRCode := none } else c2

/-- Result of a request that may change the connection variables. -/
structure ConnResult where
  conn : Conn
  response : Response
deriving DecidableEq, Repr

/-- The handler of `POST /api/start-whatsapp`. -/
def startHandler (c : Conn) : ConnResult :=
  if c.whatsappStarted then ⟨c, .json 200 (.message "Already started")⟩
  else ⟨startWhatsApp c, .json 200 (.message "Started WhatsApp connection")⟩

/-- The route `POST /api/start-whatsapp`: `requireAuth`, then the handler. -/
def postStartWhatsapp (users : Users) (session : Option String) (now : Int) (c : Conn) :
    ConnResult :=
  match requireAuth users session now with
  | some r => ⟨c, r⟩
  | none => startHandler c

/-- The handler of `GET /api/whatsapp-qr`; `!currentQRCode` holds for `null` and for the
empty string. -/
def qrHandler (c : Conn) : Response :=
  match c.currentQRCode with
  | none => .json 404 (.error "WhatsApp already connected")
  | some code =>
    if code = "" then .json 404 (.error "WhatsApp already connected")
    else .json 200 (.qr code)

/-- The route `GET /api/whatsapp-qr`: `requireAuth`, then the handler. -/
def getWhatsappQr (users : Users) (session : Option String) (now : Int) (c : Conn) :
    Response :=
  match requireAuth users session now with
  | some r => r
  | none => qrHandler c

/-- What the server lives through: a start request of an authenticated caller, or a
`connection.update` event. -/
inductive Event where
  | start : Event
  | update (u : Update) : Event
deriving DecidableEq, Repr

/-- The connection variables after one event. -/
def step (loggedOut : Nat) (c : Conn) : Event → Conn
  | .start => (startHandler c).conn
  | .update u => onConnectionUpdate loggedOut c u

/-- The connection variables after a sequence of events, from the start of the process. -/
def run (loggedOut : Nat) (events : List Event) : Conn :=
  events.foldl (step loggedOut) Conn.init

/-- The connection variables after a sequence of `connection.update` events. -/
def runUpdates (loggedOut : Nat) (c : Conn) (updates : List Update) : Conn :=
  updates.foldl (onConnectionUpdate loggedOut) c

/-! ## Audit log -/

/-- One record of `logs.json`. -/
structure LogEntry where
  message : JVal
  numbers : JVal
  status : String
  timestamp : Int

/-- The document `logs.json`; an email without entries has the empty list. -/
abbrev Logs := String → List LogEntry

/-- The function `saveLog`: pushes one entry on the list of `email`. -/
def saveLog (logs : Logs) (email : String) (message numbers : JVal) (status : String)
    (timestamp : Int) : Logs :=
  fun e => if e = email then logs e ++ [⟨message, numbers, status, timestamp⟩] else logs e

/-! ## Broadcast dispatcher -/

/-- One call `sock.sendMessage(jid, { text })`. -/
structure Sent where
  jid : JVal
  text : JVal

/-- The loop of `broadcastMessage` from its k-th call on: the calls of `sendMessage` that
were made, and whether the loop ran to its end (`true`) or a call threw (`false`). There is
no `try` in the loop: the first call that throws ends it. -/
def broadcastFrom (sendOk : Nat → Bool) (message : JVal) : Nat → List JVal → List Sent × Bool
  | _, [] => ([], true)
  | k, jid :: rest =>
    if sendOk k then
      (⟨jid, message⟩ :: (broadcastFrom sendOk message (k + 1) rest).1,
        (broadcastFrom sendOk message (k + 1) rest).2)
    else ([⟨jid, message⟩], false)

/-- The function `broadcastMessage(sock, message, jids)` of the server. -/
def broadcastMessage (sendOk : Nat → Bool) (message : JVal) (jids : List JVal) :
    List Sent × Bool :=
  broadcastFrom sendOk message 0 jids

/-- The arrow function mapped over `numbers`:
`num.includes("@s.whatsapp.net") ? num : num + "@s.whatsapp.net"` (a template literal in
the source). A string and an array have a method `includes`; on any other value the call
throws a `TypeError` (`none`). -/
def toJid : JVal → Option JVal
  | .str s => some (.str (if includes s suffix then s else s ++ suffix))
  | .arr xs =>
    some (if xs.any (JVal.isStr suffix) then .arr xs else .str (JVal.toStr (.arr xs) ++ suffix))
  | _ => none

/-- The values that have a method `includes`: strings and arrays. -/
def JVal.hasIncludes : JVal → Bool
  | .str _ => true
  | .arr _ => true
  | _ => false

/-- The call `numbers.map(...)`: `none` when the arrow function throws on an element. -/
def toJids : List JVal → Option (List JVal)
  | [] => some []
  | num :: rest =>
    match toJid num with
    | none => none
    | some jid =>
      match toJids rest with
      | none => none
      | some jids => some (jid :: jids)

/-- Result of a broadcast request: the stored logs, the `sendMessage` calls made and the
response. -/
structure BroadcastResult where
  logs : Logs
  sent : List Sent
  response : Response

/-- The handler of `POST /send-broadcast`, for the caller `email` of `req.session.user`. -/
def sendBroadcast (sendOk : Nat → Bool) (c : Conn) (logs : Logs) (email : String)
    (message numbers : JVal) (time : Int) : BroadcastResult :=
  match c.sockInstance with
  | none => ⟨logs, [], .json 503 (.error "WhatsApp not connected")⟩
  | some _ =>
    if !message.truthy || !numbers.isArray || numbers.items.length == 0 then
      ⟨logs, [], .json 400 (.error "Message and numbers required")⟩
    else
      match toJids numbers.items with
      | none => ⟨logs, [], .unhandled⟩
      | some jids =>
        if (broadcastMessage sendOk message jids).2 then
          ⟨saveLog logs email message numbers "success" time,
            (broadcastMessage sendOk message jids).1, .json 200 (.sent jids.length)⟩
        else
          ⟨saveLog logs email message numbers "failed" time,
            (broadcastMessage sendOk message jids).1,
            .json 500 (.error "Failed to send broadcast")⟩

/-- The route `POST /send-broadcast`: `requireAuth`, then the handler. -/
def postSendBroadcast (sendOk : Nat → Bool) (users : Users) (session : Option String)
    (now : Int) (c : Conn) (logs : Logs) (message numbers : JVal) (time : Int) :
    BroadcastResult :=
  match requireAuth users session now with
  | some r => ⟨logs, [], r⟩
  | none =>
    match session with
    | none => ⟨logs, [], .unhandled⟩
    | some email => sendBroadcast sendOk c logs email message numbers time

end Backend

/-! ## The send loop of `broadcast.js` -/

namespace Broadcast

open Backend

/-- The loop of `broadcastMessage` in `broadcast.js` from its k-th call on: each call of
`sendMessage` sits in its own `try`, so the loop always runs to its end. -/
def broadcastFrom (message : JVal) : Nat → List JVal → List Sent
  | _, [] => []
  | k, jid :: rest => ⟨jid, message⟩ :: broadcastFrom message (k + 1) rest

/-- The function `broadcastMessage(sock, message, jids)` of `broadcast.js`; it never
throws. -/
def broadcastMessage (_sendOk : Nat → Bool) (message : JVal) (jids : List JVal) : List Sent :=
  if jids.length == 0 then [] else broadcastFrom message 0 jids

end Broadcast

/-! ## The connection set-up of the minimal `index.js` -/

namespace Minimal

open Backend

/-- The process-wide connection variables of the minimal server, which has no
`whatsappStarted`. -/
structure Conn where
  sockInstance : Option Nat
  currentQRCode : Option String
  socketsMade : Nat
deriving DecidableEq, Repr

/-- The function `startWhatsApp` of the minimal server: every call makes a socket. -/
def startWhatsApp (c : Conn) : Conn :=
  { c with sockInstance := some c.socketsMade, socketsMade := c.socketsMade + 1 }

/-- The consumer of `connection.update` of the minimal server. -/
def onConnectionUpdate (loggedOut : Nat) (c : Conn) (update : Update) : Conn :=
  let c1 := if truthyStr update.qr then { c with currentQRCode := update.qr } else c
  if update.connection = some .close then
    if update.statusCode ≠ some loggedOut then startWhatsApp c1
    else { c1 with currentQRCode := none }
  else if update.connection = some .opened then { c1 with currentQRCode := none }
  else c1

end Minimal

/-! ## The lifecycle as the specification words it -/

namespace Spec

open Backend

/-- The lifecycle states of the specification. -/
inductive ConnState where
  | IDLE : ConnState
  | AWAITING_PAIR : ConnState
  | CONNECTED : ConnState
  | CLOSED_RECOVERABLE : ConnState
  | CLOSED_TERMINAL : ConnState
deriving DecidableEq, Repr

/-- The specified `start()`: a no-op unless the state is `IDLE` or `CLOSED_TERMINAL`,
otherwise a session is opened and the state is `AWAITING_PAIR`. -/
def start : ConnState → ConnState
  | .IDLE => .AWAITING_PAIR
  | .CLOSED_TERMINAL => .AWAITING_PAIR
  | s => s

/-- The specified transition on an event: a pairing artifact leaves the state as it is, a
close that is not a logout goes through `CLOSED_RECOVERABLE` back to `AWAITING_PAIR`, a
logout goes to `CLOSED_TERMINAL`, an open to `CONNECTED`. -/
def transition (loggedOut : Nat) (s : ConnState) : Event → ConnState
  | .start => start s
  | .update u =>
    if u.connection = some .close then
      if u.statusCode ≠ some loggedOut then .AWAITING_PAIR else .CLOSED_TERMINAL
    else if u.connection = some .opened then .CONNECTED
    else s

/-- The specified state after a sequence of events, from `IDLE`. -/
def stateAfter (loggedOut : Nat) (events : List Event) : ConnState :=
  events.foldl (transition loggedOut) .IDLE

/-- The specified `isConnected()`: the state is `CONNECTED` and a session handle exists. -/
def isConnected (s : ConnState) (handle : Option Nat) : Bool :=
  decide (s = .CONNECTED) && handle.isSome

end Spec

/-! ## Concrete inputs used by the closed statements below -/

namespace Backend

/-- An active account whose subscription ends at time 1000. -/
def sampleAccount : Account :=
  { email := "ann@example.org", phone := "0700", password := "pw", isActive := true,
    sessionStart := 0, sessionExpires := 1000 }

/-- A `users.json` holding only `sampleAccount`. -/
def sampleUsers : Users :=
  fun e => if e = "ann@example.org" then some sampleAccount else none

/-- A stand-in for `bcrypt.compare` that accepts a password equal to the stored text. -/
def sameText : String → String → Bool := fun password stored => password == stored

/-- An empty `logs.json`. -/
def noLogs : Logs := fun _ => []

/-- A close event that is not a logout (status code 428, with 401 for the logout). -/
def lostConnection : Update :=
  { connection := some .close, qr := none, statusCode := some 428 }

/-- A socket whose first `sendMessage` call throws. -/
def failFirst : Nat → Bool := fun k => k != 0

/-- A socket whose second `sendMessage` call throws. -/
def failSecond : Nat → Bool := fun k => k != 1

/-- A socket whose `sendMessage` calls all return. -/
def alwaysOk : Nat → Bool := fun _ => true

/-- An update that carries the pairing code `QR-1` and nothing else. -/
def pairingCode : Update :=
  { connection := none, qr := some "QR-1", statusCode := none }

/-- The update of a connection that has opened. -/
def connectionOpen : Update :=
  { connection := some .opened, qr := none, statusCode := none }

/-- A close event that is a logout, with 401 for the logout. -/
def loggedOutClose : Update :=
  { connection := some .close, qr := some "QR-0", statusCode := some 401 }

end Backend

/-! ## Connection manager: start, restart and logout -/

namespace Backend

theorem startWhatsApp_of_started (c : Conn) (h : c.whatsappStarted = true) :
    startWhatsApp c = c := by
  simp [startWhatsApp, h]

theorem startHandler_of_started (c : Conn) (h : c.whatsappStarted = true) :
    startHandler c = ⟨c, .json 200 (.message "Already started")⟩ := by
  simp [startHandler, h]

theorem postStartWhatsapp_conn_of_started (users : Users) (session : Option String)
    (now : Int) (c : Conn) (h : c.whatsappStarted = true) :
    (postStartWhatsapp users session now c).conn = c := by
  unfold postStartWhatsapp
  cases requireAuth users session now with
  | some r => rfl
  | none => simp [startHandler_of_started c h]

theorem iterate_postStartWhatsapp_of_started (users : Users) (session : Option String)
    (now : Int) (c : Conn) (h : c.whatsappStarted = true) (n : Nat) :
    (fun d => (postStartWhatsapp users session now d).conn)^[n] c = c := by
  induction n with
  | zero => rfl
  | succ n ih =>
    rw [Function.iterate_succ_apply', ih]
    exact postStartWhatsapp_conn_of_started users session now c h

/-- While `whatsappStarted` is set, a close event that is not a logout leaves every
connection variable but the pairing code as it was: the call of `startWhatsApp` made by
the consumer returns at its first line. -/
theorem onConnectionUpdate_close_of_started (loggedOut : Nat) (c : Conn) (u : Update)
    (hstarted : c.whatsappStarted = true) (hclose : u.connection = some .close)
    (hcode : u.statusCode ≠ some loggedOut) :
    (onConnectionUpdate loggedOut c u).socketsMade = c.socketsMade ∧
      (onConnectionUpdate loggedOut c u).sockInstance = c.sockInstance ∧
      (onConnectionUpdate loggedOut c u).whatsappStarted = true := by
  unfold onConnectionUpdate
  by_cases hq : truthyStr u.qr = true <;>
    simp [hq, hclose, hcode, startWhatsApp, hstarted]

/-- Claim C1, evaluated on the server: after a start has opened socket 0, a close event
with status code 428 (not the logout code 401) opens no session. The consumer calls
`startWhatsApp`, which returns at once because `whatsappStarted` is still set:
`makeWASocket` has been called once in all and `sockInstance` is still socket 0. -/
theorem restart_after_close_opens_nothing :
    (run 401 [.start]).socketsMade = 1 ∧
      (run 401 [.start]).sockInstance = some 0 ∧
      (run 401 [.start, .update lostConnection]).socketsMade = 1 ∧
      (run 401 [.start, .update lostConnection]).sockInstance = some 0 := by
  decide

end Backend

namespace Minimal

open Backend

/-- In the minimal server the same close event does reopen: the consumer makes exactly one
new socket and stores it in `sockInstance`. -/
theorem onConnectionUpdate_close_reopens (loggedOut : Nat) (c : Conn) (u : Update)
    (hclose : u.connection = some .close) (hcode : u.statusCode ≠ some loggedOut) :
    (onConnectionUpdate loggedOut c u).socketsMade = c.socketsMade + 1 ∧
      (onConnectionUpdate loggedOut c u).sockInstance = some c.socketsMade := by
  unfold onConnectionUpdate
  by_cases hq : truthyStr u.qr = true <;>
    simp [hq, hclose, hcode, startWhatsApp]

end Minimal

namespace Backend

/-- Claim C6: once `whatsappStarted` is set, any number n of further start requests leaves
the connection variables as they were (no call of `makeWASocket`, the same `sockInstance`),
and the next request of an authenticated caller reports "Already started". -/
theorem start_is_idempotent (users : Users) (email : String) (now : Int) (c : Conn)
    (n : Nat) (hstarted : c.whatsappStarted = true)
    (hauth : requireAuth users (some email) now = none) :
    (fun d => (postStartWhatsapp users (some email) now d).conn)^[n] c = c ∧
      ((fun d => (postStartWhatsapp users (some email) now d).conn)^[n] c).socketsMade
        = c.socketsMade ∧
      ((fun d => (postStartWhatsapp users (some email) now d).conn)^[n] c).sockInstance
        = c.sockInstance ∧
      (postStartWhatsapp users (some email) now
          ((fun d => (postStartWhatsapp users (some email) now d).conn)^[n] c)).response
        = .json 200 (.message "Already started") := by
  rw [iterate_postStartWhatsapp_of_started users (some email) now c hstarted n]
  refine ⟨rfl, rfl, rfl, ?_⟩
  simp [postStartWhatsapp, hauth, startHandler_of_started c hstarted]

theorem start_is_idempotent_witness :
    (run 401 [.start]).whatsappStarted = true ∧
      requireAuth sampleUsers (some "ann@example.org") 10 = none ∧
      (postStartWhatsapp sampleUsers (some "ann@example.org") 10
          ((fun d => (postStartWhatsapp sampleUsers (some "ann@example.org") 10 d).conn)^[3]
            (run 401 [.start]))).response
        = .json 200 (.message "Already started") :=
  ⟨by decide, by decide,
    (start_is_idempotent sampleUsers "ann@example.org" 10 (run 401 [.start]) 3
      (by decide) (by decide)).2.2.2⟩

/-- Claim C7: a close event whose status code is the logout code clears the pairing code
and makes no socket (`sockInstance` and the count of `makeWASocket` calls are as before);
the next pairing request of an authenticated caller is answered 404, and the next start
request makes a new socket and reports a start, not "Already started". -/
theorem logout_close_is_terminal (loggedOut : Nat) (users : Users) (email : String)
    (now : Int) (c : Conn) (u : Update)
    (hclose : u.connection = some .close) (hcode : u.statusCode = some loggedOut)
    (hauth : requireAuth users (some email) now = none) :
    (onConnectionUpdate loggedOut c u).currentQRCode = none ∧
      (onConnectionUpdate loggedOut c u).socketsMade = c.socketsMade ∧
      (onConnectionUpdate loggedOut c u).sockInstance = c.sockInstance ∧
      getWhatsappQr users (some email) now (onConnectionUpdate loggedOut c u)
        = .json 404 (.error "WhatsApp already connected") ∧
      (postStartWhatsapp users (some email) now (onConnectionUpdate loggedOut c u)).response
        = .json 200 (.message "Started WhatsApp connection") ∧
      (postStartWhatsapp users (some email) now
          (onConnectionUpdate loggedOut c u)).conn.socketsMade = c.socketsMade + 1 ∧
      (postStartWhatsapp users (some email) now
          (onConnectionUpdate loggedOut c u)).conn.sockInstance = some c.socketsMade := by
  have hc : onConnectionUpdate loggedOut c u
      = { c with currentQRCode := none, whatsappStarted := false } := by
    unfold onConnectionUpdate
    by_cases hq : truthyStr u.qr = true <;> simp [hq, hclose, hcode]
  rw [hc]
  simp [getWhatsappQr, postStartWhatsapp, hauth, qrHandler, startHandler, startWhatsApp]

theorem logout_close_is_terminal_witness :
    loggedOutClose.connection = some .close ∧ loggedOutClose.statusCode = some 401 ∧
      requireAuth sampleUsers (some "ann@example.org") 10 = none ∧
      getWhatsappQr sampleUsers (some "ann@example.org") 10
          (onConnectionUpdate 401 (run 401 [.start]) loggedOutClose)
        = .json 404 (.error "WhatsApp already connected") ∧
      (postStartWhatsapp sampleUsers (some "ann@example.org") 10
          (onConnectionUpdate 401 (run 401 [.start]) loggedOutClose)).conn.sockInstance
        = some (run 401 [.start]).socketsMade :=
  ⟨by decide, by decide, by decide,
    (logout_close_is_terminal 401 sampleUsers "ann@example.org" 10 (run 401 [.start])
      loggedOutClose (by decide) (by decide) (by decide)).2.2.2.1,
    (logout_close_is_terminal 401 sampleUsers "ann@example.org" 10 (run 401 [.start])
      loggedOutClose (by decide) (by decide) (by decide)).2.2.2.2.2.2⟩

end Backend

/-! ## Broadcast dispatcher -/

namespace Backend

theorem broadcastFrom_all_ok (sendOk : Nat → Bool) (message : JVal) (jids : List JVal) :
    ∀ k : Nat, (∀ i, i < jids.length → sendOk (k + i) = true) →
      broadcastFrom sendOk message k jids = (jids.map (fun jid => ⟨jid, message⟩), true) := by
  induction jids with
  | nil => intro k _; rfl
  | cons jid rest ih =>
    intro k h
    have h0 : sendOk k = true := by simpa using h 0 (by simp)
    have hrest : ∀ i, i < rest.length → sendOk (k + 1 + i) = true := by
      intro i hi
      have := h (i + 1) (by simp; omega)
      rwa [show k + (i + 1) = k + 1 + i by omega] at this
    simp [broadcastFrom, h0, ih (k + 1) hrest]

theorem broadcastFrom_some_fail (sendOk : Nat → Bool) (message : JVal) (jids : List JVal) :
    ∀ k : Nat, (∃ i, i < jids.length ∧ sendOk (k + i) = false) →
      (broadcastFrom sendOk message k jids).2 = false := by
  induction jids with
  | nil => intro k ⟨i, hi, _⟩; simp at hi
  | cons jid rest ih =>
    intro k ⟨i, hi, hf⟩
    by_cases h0 : sendOk k = true
    · have hrest : ∃ j, j < rest.length ∧ sendOk (k + 1 + j) = false := by
        cases i with
        | zero => simp [h0] at hf
        | succ j =>
          refine ⟨j, by simpa using hi, ?_⟩
          rwa [show k + 1 + j = k + (j + 1) by omega]
      simp [broadcastFrom, h0, ih (k + 1) hrest]
    · simp [broadcastFrom, h0]

theorem broadcastMessage_all_ok (sendOk : Nat → Bool) (message : JVal) (jids : List JVal)
    (h : ∀ i, i < jids.length → sendOk i = true) :
    broadcastMessage sendOk message jids = (jids.map (fun jid => ⟨jid, message⟩), true) := by
  unfold broadcastMessage
  exact broadcastFrom_all_ok sendOk message jids 0 (by simpa using h)

theorem broadcastMessage_some_fail (sendOk : Nat → Bool) (message : JVal) (jids : List JVal)
    (h : ∃ i, i < jids.length ∧ sendOk i = false) :
    (broadcastMessage sendOk message jids).2 = false := by
  unfold broadcastMessage
  exact broadcastFrom_some_fail sendOk message jids 0 (by simpa using h)

theorem toJids_strings (rs : List String) :
    toJids (rs.map JVal.str)
      = some (rs.map (fun r => JVal.str (if includes r suffix then r else r ++ suffix))) := by
  induction rs with
  | nil => rfl
  | cons r rest ih => simp [toJids, toJid, ih]

theorem toJids_of_hasIncludes (nums : List JVal)
    (h : ∀ num ∈ nums, num.hasIncludes = true) :
    ∃ jids, toJids nums = some jids ∧ jids.length = nums.length := by
  induction nums with
  | nil => exact ⟨[], rfl, rfl⟩
  | cons num rest ih =>
    obtain ⟨jids, hj, hl⟩ := ih (fun x hx => h x (List.mem_cons_of_mem _ hx))
    have hn := h num (List.mem_cons_self _ _)
    cases num with
    | str s =>
      exact ⟨JVal.str (if includes s suffix then s else s ++ suffix) :: jids,
        by simp [toJids, toJid, hj], by simp [hl]⟩
    | arr xs =>
      exact ⟨(if xs.any (JVal.isStr suffix) then JVal.arr xs
          else JVal.str (JVal.toStr (.arr xs) ++ suffix)) :: jids,
        by simp [toJids, toJid, hj], by simp [hl]⟩
    | undefined => simp [JVal.hasIncludes] at hn
    | null => simp [JVal.hasIncludes] at hn
    | bool b => simp [JVal.hasIncludes] at hn
    | num n => simp [JVal.hasIncludes] at hn
    | obj => simp [JVal.hasIncludes] at hn

end Backend

namespace Broadcast

open Backend

theorem broadcastFrom_jids (message : JVal) (jids : List JVal) :
    ∀ k : Nat, (broadcastFrom message k jids).map Sent.jid = jids := by
  induction jids with
  | nil => intro k; rfl
  | cons jid rest ih => intro k; simp [broadcastFrom, ih (k + 1)]

/-- The loop of `broadcast.js` calls `sendMessage` for every recipient, in order, whatever
calls throw. -/
theorem broadcastMessage_attempts_all (sendOk : Nat → Bool) (message : JVal)
    (jids : List JVal) :
    (broadcastMessage sendOk message jids).map Sent.jid = jids := by
  unfold broadcastMessage
  cases jids with
  | nil => rfl
  | cons jid rest => simpa using broadcastFrom_jids message (jid :: rest) 0

end Broadcast

namespace Backend

/-- Claim C2, evaluated on the server: with recipients A and B and a socket whose first
`sendMessage` call throws, the loop of `broadcastMessage` ends at that call. The only call
made is the one to A, none is made to B, and the handler answers 500. -/
theorem broadcast_stops_at_first_failure :
    (broadcastMessage failFirst (.str "hi")
        [.str "A@s.whatsapp.net", .str "B@s.whatsapp.net"]).1.map Sent.jid
      = [.str "A@s.whatsapp.net"] ∧
    (broadcastMessage failFirst (.str "hi")
        [.str "A@s.whatsapp.net", .str "B@s.whatsapp.net"]).2 = false ∧
    (sendBroadcast failFirst (run 401 [.start]) noLogs "ann@example.org" (.str "hi")
        (.arr [.str "A", .str "B"]) 20).sent.map Sent.jid = [.str "A@s.whatsapp.net"] ∧
    (sendBroadcast failFirst (run 401 [.start]) noLogs "ann@example.org" (.str "hi")
        (.arr [.str "A", .str "B"]) 20).response
      = .json 500 (.error "Failed to send broadcast") := by
  refine ⟨rfl, rfl, rfl, rfl⟩

end Backend

namespace Backend

/-- Claim C3 as stated fails: right after a start the specified state is `AWAITING_PAIR`,
so the specified `isConnected()` is false, yet `sockInstance` is set and a broadcast of an
authenticated caller goes through: one `sendMessage` call, one log entry, answer 200. -/
theorem broadcast_while_awaiting_pair :
    Spec.stateAfter 401 [.start] = .AWAITING_PAIR ∧
    Spec.isConnected (Spec.stateAfter 401 [.start]) (run 401 [.start]).sockInstance = false ∧
    (postSendBroadcast alwaysOk sampleUsers (some "ann@example.org") 10 (run 401 [.start])
        noLogs (.str "hi") (.arr [.str "1234"]) 20).response = .json 200 (.sent 1) ∧
    (postSendBroadcast alwaysOk sampleUsers (some "ann@example.org") 10 (run 401 [.start])
        noLogs (.str "hi") (.arr [.str "1234"]) 20).sent.map Sent.jid
      = [.str "1234@s.whatsapp.net"] ∧
    ((postSendBroadcast alwaysOk sampleUsers (some "ann@example.org") 10 (run 401 [.start])
        noLogs (.str "hi") (.arr [.str "1234"]) 20).logs "ann@example.org").map
        LogEntry.status = ["success"] := by
  refine ⟨rfl, rfl, rfl, rfl, rfl⟩

/-- Claim C3, amended: when no session handle exists (`sockInstance` is `null`), a
broadcast request of an authenticated caller is answered 503, makes no `sendMessage` call
and leaves the logs as they were. -/
theorem broadcast_without_socket (sendOk : Nat → Bool) (users : Users) (email : String)
    (now : Int) (c : Conn) (logs : Logs) (message numbers : JVal) (time : Int)
    (hauth : requireAuth users (some email) now = none)
    (hsock : c.sockInstance = none) :
    (postSendBroadcast sendOk users (some email) now c logs message numbers time).response
        = .json 503 (.error "WhatsApp not connected") ∧
      (postSendBroadcast sendOk users (some email) now c logs message numbers time).sent = [] ∧
      (postSendBroadcast sendOk users (some email) now c logs message numbers time).logs
        = logs := by
  simp [postSendBroadcast, hauth, sendBroadcast, hsock]

theorem broadcast_without_socket_witness :
    requireAuth sampleUsers (some "ann@example.org") 10 = none ∧
      Conn.init.sockInstance = none ∧
      (postSendBroadcast alwaysOk sampleUsers (some "ann@example.org") 10 Conn.init noLogs
          (.str "hi") (.arr [.str "1234"]) 20).response
        = .json 503 (.error "WhatsApp not connected") :=
  ⟨by decide, by decide,
    (broadcast_without_socket alwaysOk sampleUsers "ann@example.org" 10 Conn.init noLogs
      (.str "hi") (.arr [.str "1234"]) 20 (by decide) (by decide)).1⟩

/-- Claim C4: for a non-empty message and a non-empty list of recipient strings, with a
session handle and `sendMessage` calls that all return, a broadcast request of an
authenticated caller makes exactly one call per recipient, in the order of the list, to
the recipient itself when it contains the domain suffix and to the recipient followed by
the suffix otherwise, with the message as text, and answers success with `sentTo` the
number of recipients. -/
theorem broadcast_sends_to_each (sendOk : Nat → Bool) (users : Users) (email : String)
    (now : Int) (c : Conn) (logs : Logs) (m : String) (rs : List String) (time : Int)
    (handle : Nat)
    (hauth : requireAuth users (some email) now = none)
    (hsock : c.sockInstance = some handle)
    (hm : m ≠ "") (hrs : rs ≠ [])
    (hok : ∀ i, i < rs.length → sendOk i = true) :
    (postSendBroadcast sendOk users (some email) now c logs (.str m)
          (.arr (rs.map JVal.str)) time).sent
        = rs.map (fun r =>
            ⟨.str (if includes r suffix then r else r ++ suffix), .str m⟩) ∧
      (postSendBroadcast sendOk users (some email) now c logs (.str m)
          (.arr (rs.map JVal.str)) time).response
        = .json 200 (.sent rs.length) := by
  have hall : broadcastMessage sendOk (.str m)
      (rs.map (fun r => JVal.str (if includes r suffix then r else r ++ suffix)))
      = ((rs.map (fun r => JVal.str (if includes r suffix then r else r ++ suffix))).map
          (fun jid => ⟨jid, .str m⟩), true) :=
    broadcastMessage_all_ok sendOk (.str m) _ (by simpa using hok)
  simp [postSendBroadcast, hauth, sendBroadcast, hsock, JVal.truthy, JVal.isArray,
    JVal.items, hm, hrs, toJids_strings, hall]

theorem broadcast_sends_to_each_witness :
    requireAuth sampleUsers (some "ann@example.org") 10 = none ∧
      (run 401 [.start]).sockInstance = some 0 ∧
      (postSendBroadcast alwaysOk sampleUsers (some "ann@example.org") 10 (run 401 [.start])
          noLogs (.str "hi") (.arr (["1234", "5@s.whatsapp.net"].map JVal.str)) 20).sent
        = ["1234", "5@s.whatsapp.net"].map (fun r =>
            ⟨.str (if includes r suffix then r else r ++ suffix), .str "hi"⟩) ∧
      (postSendBroadcast alwaysOk sampleUsers (some "ann@example.org") 10 (run 401 [.start])
          noLogs (.str "hi") (.arr (["1234", "5@s.whatsapp.net"].map JVal.str)) 20).response
        = .json 200 (.sent 2) :=
  ⟨by decide, by decide,
    (broadcast_sends_to_each alwaysOk sampleUsers "ann@example.org" 10 (run 401 [.start])
      noLogs "hi" ["1234", "5@s.whatsapp.net"] 20 0 (by decide) (by decide) (by decide)
      (by decide) (fun _ _ => rfl)).1,
    (broadcast_sends_to_each alwaysOk sampleUsers "ann@example.org" 10 (run 401 [.start])
      noLogs "hi" ["1234", "5@s.whatsapp.net"] 20 0 (by decide) (by decide) (by decide)
      (by decide) (fun _ _ => rfl)).2⟩

/-- Claim C10: with a session handle, a broadcast request of an authenticated caller whose
message is falsy (the empty string is), whose `numbers` is not an array, or whose
`numbers` is the empty array is answered 400, makes no `sendMessage` call and leaves the
logs as they were. -/
theorem broadcast_rejects_bad_input (sendOk : Nat → Bool) (users : Users) (email : String)
    (now : Int) (c : Conn) (logs : Logs) (message numbers : JVal) (time : Int)
    (handle : Nat)
    (hauth : requireAuth users (some email) now = none)
    (hsock : c.sockInstance = some handle)
    (hbad : message = .str "" ∨ message.truthy = false ∨ numbers.isArray = false ∨
      numbers = .arr []) :
    (postSendBroadcast sendOk users (some email) now c logs message numbers time).response
        = .json 400 (.error "Message and numbers required") ∧
      (postSendBroadcast sendOk users (some email) now c logs message numbers time).sent = [] ∧
      (postSendBroadcast sendOk users (some email) now c logs message numbers time).logs
        = logs := by
  have hcond : (!message.truthy || !numbers.isArray || numbers.items.length == 0) = true := by
    rcases hbad with h | h | h | h
    · simp [h, JVal.truthy]
    · simp [h]
    · simp [h]
    · simp [h, JVal.items]
  simp [postSendBroadcast, hauth, sendBroadcast, hsock, hcond]

theorem broadcast_rejects_bad_input_witness :
    requireAuth sampleUsers (some "ann@example.org") 10 = none ∧
      (run 401 [.start]).sockInstance = some 0 ∧
      (postSendBroadcast alwaysOk sampleUsers (some "ann@example.org") 10 (run 401 [.start])
          noLogs (.str "") (.arr [.str "1234"]) 20).response
        = .json 400 (.error "Message and numbers required") ∧
      (postSendBroadcast alwaysOk sampleUsers (some "ann@example.org") 10 (run 401 [.start])
          noLogs (.str "hi") (.arr []) 20).response
        = .json 400 (.error "Message and numbers required") ∧
      (postSendBroadcast alwaysOk sampleUsers (some "ann@example.org") 10 (run 401 [.start])
          noLogs (.str "hi") (.str "1234") 20).response
        = .json 400 (.error "Message and numbers required") :=
  ⟨by decide, by decide,
    (broadcast_rejects_bad_input alwaysOk sampleUsers "ann@example.org" 10
      (run 401 [.start]) noLogs (.str "") (.arr [.str "1234"]) 20 0 (by decide) (by decide)
      (Or.inl rfl)).1,
    (broadcast_rejects_bad_input alwaysOk sampleUsers "ann@example.org" 10
      (run 401 [.start]) noLogs (.str "hi") (.arr []) 20 0 (by decide) (by decide)
      (Or.inr (Or.inr (Or.inr rfl)))).1,
    (broadcast_rejects_bad_input alwaysOk sampleUsers "ann@example.org" 10
      (run 401 [.start]) noLogs (.str "hi") (.str "1234") 20 0 (by decide) (by decide)
      (Or.inr (Or.inr (Or.inl rfl)))).1⟩

end Backend

namespace Backend

/-- Claim C5, evaluated on the server: in the connected state (a start, then an open) the
request with message "hi" and `numbers` the array holding the number 1234 passes both
preconditions (the specified `isConnected()` is true and a session handle exists, the
message is truthy, `numbers` is a non-empty array). But `num.includes` is not a function on
a number: `numbers.map` throws a `TypeError` one statement before the `try` whose `catch`
would have logged "failed" and answered 500, so the handler makes no `sendMessage` call,
writes no log entry and sends no answer of its own. -/
theorem broadcast_of_number_recipient_logs_nothing :
    Spec.isConnected (Spec.stateAfter 401 [.start, .update connectionOpen])
        (run 401 [.start, .update connectionOpen]).sockInstance = true ∧
    (run 401 [.start, .update connectionOpen]).sockInstance = some 0 ∧
    (JVal.str "hi").truthy = true ∧
    (JVal.arr [.num 1234]).isArray = true ∧
    (JVal.arr [.num 1234]).items.length = 1 ∧
    (postSendBroadcast alwaysOk sampleUsers (some "ann@example.org") 10
        (run 401 [.start, .update connectionOpen])
        noLogs (.str "hi") (.arr [.num 1234]) 20).response = .unhandled ∧
    (postSendBroadcast alwaysOk sampleUsers (some "ann@example.org") 10
        (run 401 [.start, .update connectionOpen])
        noLogs (.str "hi") (.arr [.num 1234]) 20).sent.length = 0 ∧
    ((postSendBroadcast alwaysOk sampleUsers (some "ann@example.org") 10
        (run 401 [.start, .update connectionOpen])
        noLogs (.str "hi") (.arr [.num 1234]) 20).logs "ann@example.org").length = 0 := by
  refine ⟨rfl, rfl, rfl, rfl, rfl, rfl, rfl, rfl⟩

/-- The logging of the handler where `numbers.map` does not throw: a broadcast request of an
authenticated caller that passes both preconditions and whose recipients are all strings or
arrays (the values that have a method `includes`) appends exactly one entry, holding the
message and the recipients as given, to the end of the caller's log and leaves the entries
of every other account as they were; when no `sendMessage` call throws the entry's status
is "success" and the answer is 200 with `sentTo` the number of recipients, and when some
call throws the status is "failed" and the answer is 500. -/
theorem broadcast_appends_one_entry (sendOk : Nat → Bool) (users : Users) (email : String)
    (now : Int) (c : Conn) (logs : Logs) (message : JVal) (nums : List JVal) (time : Int)
    (handle : Nat)
    (hauth : requireAuth users (some email) now = none)
    (hsock : c.sockInstance = some handle)
    (hm : message.truthy = true) (hnums : nums ≠ [])
    (hincl : ∀ num ∈ nums, num.hasIncludes = true) :
    (∃ status,
        (postSendBroadcast sendOk users (some email) now c logs message (.arr nums) time).logs
            email
          = logs email ++ [⟨message, .arr nums, status, time⟩]) ∧
      (∀ other, other ≠ email →
        (postSendBroadcast sendOk users (some email) now c logs message (.arr nums) time).logs
            other
          = logs other) ∧
      ((∀ i, i < nums.length → sendOk i = true) →
        (postSendBroadcast sendOk users (some email) now c logs message (.arr nums) time).logs
            email
          = logs email ++ [⟨message, .arr nums, "success", time⟩] ∧
        (postSendBroadcast sendOk users (some email) now c logs message (.arr nums)
            time).response
          = .json 200 (.sent nums.length)) ∧
      ((∃ i, i < nums.length ∧ sendOk i = false) →
        (postSendBroadcast sendOk users (some email) now c logs message (.arr nums) time).logs
            email
          = logs email ++ [⟨message, .arr nums, "failed", time⟩] ∧
        (postSendBroadcast sendOk users (some email) now c logs message (.arr nums)
            time).response
          = .json 500 (.error "Failed to send broadcast")) := by
  obtain ⟨jids, hj, hl⟩ := toJids_of_hasIncludes nums hincl
  have hne : nums.length ≠ 0 := by
    intro h
    exact hnums (List.length_eq_zero.mp h)
  have hroute :
      postSendBroadcast sendOk users (some email) now c logs message (.arr nums) time
        = if (broadcastMessage sendOk message jids).2 then
            ⟨saveLog logs email message (.arr nums) "success" time,
              (broadcastMessage sendOk message jids).1, .json 200 (.sent jids.length)⟩
          else
            ⟨saveLog logs email message (.arr nums) "failed" time,
              (broadcastMessage sendOk message jids).1,
              .json 500 (.error "Failed to send broadcast")⟩ := by
    simp [postSendBroadcast, hauth, sendBroadcast, hsock, hm, JVal.isArray, JVal.items,
      hnums, hj]
  rw [hroute]
  refine ⟨?_, ?_, ?_, ?_⟩
  · cases h : (broadcastMessage sendOk message jids).2
    · exact ⟨"failed", by simp [saveLog]⟩
    · exact ⟨"success", by simp [saveLog]⟩
  · intro other hother
    cases h : (broadcastMessage sendOk message jids).2 <;> simp [saveLog, hother]
  · intro hok
    have h := broadcastMessage_all_ok sendOk message jids (by rw [hl]; exact hok)
    simp [h, saveLog, hl]
  · intro hfail
    have h := broadcastMessage_some_fail sendOk message jids (by rw [hl]; exact hfail)
    simp [h, saveLog]

theorem broadcast_appends_one_entry_witness :
    requireAuth sampleUsers (some "ann@example.org") 10 = none ∧
      (run 401 [.start]).sockInstance = some 0 ∧
      (JVal.str "hi").truthy = true ∧
      failSecond 1 = false ∧
      (postSendBroadcast failSecond sampleUsers (some "ann@example.org") 10
          (run 401 [.start]) noLogs (.str "hi") (.arr [.str "A", .str "B"]) 20).logs
          "ann@example.org"
        = noLogs "ann@example.org" ++ [⟨.str "hi", .arr [.str "A", .str "B"], "failed", 20⟩] ∧
      (postSendBroadcast failSecond sampleUsers (some "ann@example.org") 10
          (run 401 [.start]) noLogs (.str "hi") (.arr [.str "A", .str "B"]) 20).response
        = .json 500 (.error "Failed to send broadcast") :=
  ⟨by decide, by decide, rfl, rfl,
    ((broadcast_appends_one_entry failSecond sampleUsers "ann@example.org" 10
      (run 401 [.start]) noLogs (.str "hi") [.str "A", .str "B"] 20 0 (by decide)
      (by decide) rfl (by simp) (by simp [JVal.hasIncludes])).2.2.2
        ⟨1, by decide, rfl⟩).1,
    ((broadcast_appends_one_entry failSecond sampleUsers "ann@example.org" 10
      (run 401 [.start]) noLogs (.str "hi") [.str "A", .str "B"] 20 0 (by decide)
      (by decide) rfl (by simp) (by simp [JVal.hasIncludes])).2.2.2
        ⟨1, by decide, rfl⟩).2⟩

end Backend

/-! ## Pairing code -/

namespace Backend

theorem startWhatsApp_currentQRCode (c : Conn) :
    (startWhatsApp c).currentQRCode = c.currentQRCode := by
  unfold startWhatsApp
  split <;> rfl

/-- The pairing code after one update: cleared by an open and by a logout, replaced by a
truthy `qr`, otherwise kept. -/
theorem onConnectionUpdate_currentQRCode (loggedOut : Nat) (c : Conn) (u : Update) :
    (onConnectionUpdate loggedOut c u).currentQRCode
      = if u.connection = some .opened ∨
            (u.connection = some .close ∧ u.statusCode = some loggedOut) then none
        else if truthyStr u.qr then u.qr else c.currentQRCode := by
  unfold onConnectionUpdate
  by_cases hq : truthyStr u.qr = true <;>
  by_cases hclose : u.connection = some .close <;>
  by_cases hopen : u.connection = some .opened <;>
  by_cases hcode : u.statusCode = some loggedOut <;>
  simp_all [startWhatsApp_currentQRCode]

theorem runUpdates_append (loggedOut : Nat) (c : Conn) (pre post : List Update) :
    runUpdates loggedOut c (pre ++ post)
      = runUpdates loggedOut (runUpdates loggedOut c pre) post := by
  simp [runUpdates, List.foldl_append]

theorem runUpdates_cons (loggedOut : Nat) (c : Conn) (u : Update) (post : List Update) :
    runUpdates loggedOut c (u :: post)
      = runUpdates loggedOut (onConnectionUpdate loggedOut c u) post := by
  simp [runUpdates]

theorem runUpdates_keeps_no_code (loggedOut : Nat) (updates : List Update) :
    ∀ c : Conn, truthyStr c.currentQRCode = false →
      (∀ v ∈ updates, truthyStr v.qr = false) →
      truthyStr (runUpdates loggedOut c updates).currentQRCode = false := by
  induction updates with
  | nil => intro c hc _; simpa [runUpdates] using hc
  | cons u rest ih =>
    intro c hc h
    rw [runUpdates_cons]
    apply ih
    · rw [onConnectionUpdate_currentQRCode]
      have hu : truthyStr u.qr = false := h u (List.mem_cons_self _ _)
      split
      · rfl
      · simp [hu, hc]
    · intro v hv
      exact h v (List.mem_cons_of_mem _ hv)

theorem runUpdates_keeps_code (loggedOut : Nat) (updates : List Update) :
    ∀ c : Conn, truthyStr c.currentQRCode = true →
      (∀ v ∈ updates, v.connection ≠ some .opened ∧
        ¬(v.connection = some .close ∧ v.statusCode = some loggedOut)) →
      truthyStr (runUpdates loggedOut c updates).currentQRCode = true := by
  induction updates with
  | nil => intro c hc _; simpa [runUpdates] using hc
  | cons u rest ih =>
    intro c hc h
    rw [runUpdates_cons]
    apply ih
    · rw [onConnectionUpdate_currentQRCode]
      have hu := h u (List.mem_cons_self _ _)
      rw [if_neg (by rintro (h1 | h2); exact hu.1 h1; exact hu.2 h2)]
      split
      · assumption
      · exact hc
    · intro v hv
      exact h v (List.mem_cons_of_mem _ hv)

theorem qrHandler_of_no_code (c : Conn) (h : truthyStr c.currentQRCode = false) :
    qrHandler c = .json 404 (.error "WhatsApp already connected") := by
  unfold qrHandler
  cases hq : c.currentQRCode with
  | none => rfl
  | some code =>
    rw [hq] at h
    have : code = "" := by simpa [truthyStr] using h
    simp [this]

theorem qrHandler_of_code (c : Conn) (h : truthyStr c.currentQRCode = true) :
    ∃ code, code ≠ "" ∧ qrHandler c = .json 200 (.qr code) := by
  unfold qrHandler
  cases hq : c.currentQRCode with
  | none => rw [hq] at h; simp [truthyStr] at h
  | some code =>
    rw [hq] at h
    have hne : code ≠ "" := by simpa [truthyStr] using h
    exact ⟨code, hne, by simp [hne]⟩

/-- Claim C8 as stated fails on both halves. Right after a start, before any update, the
specified state is `AWAITING_PAIR` and the pairing request is answered 404. After a start,
an open and an update that carries only a pairing code, the last connection transition is
the open, the specified state is `CONNECTED`, and the pairing request returns the code. -/
theorem pairing_code_not_tied_to_state :
    Spec.stateAfter 401 [.start] = .AWAITING_PAIR ∧
    getWhatsappQr sampleUsers (some "ann@example.org") 10 (run 401 [.start])
      = .json 404 (.error "WhatsApp already connected") ∧
    Spec.stateAfter 401 [.start, .update connectionOpen, .update pairingCode]
      = .CONNECTED ∧
    getWhatsappQr sampleUsers (some "ann@example.org") 10
        (run 401 [.start, .update connectionOpen, .update pairingCode])
      = .json 200 (.qr "QR-1") := by
  decide

/-- Claim C8, amended: for every sequence of updates and an authenticated caller, the
pairing request is answered 404 after an open as long as no later update carries a pairing
code; it returns a non-empty code once an update carrying one has arrived, as long as no
update from that one on is an open or a logout; and it is answered 404 as long as no code
is stored and no update carries one, as right after a start. -/
theorem pairing_code_availability (loggedOut : Nat) (users : Users) (email : String)
    (now : Int) (c : Conn) (pre post : List Update) (u : Update)
    (hauth : requireAuth users (some email) now = none) :
    (u.connection = some .opened → (∀ v ∈ post, truthyStr v.qr = false) →
        getWhatsappQr users (some email) now (runUpdates loggedOut c (pre ++ u :: post))
          = .json 404 (.error "WhatsApp already connected")) ∧
      (truthyStr u.qr = true →
        (∀ v ∈ u :: post, v.connection ≠ some .opened ∧
          ¬(v.connection = some .close ∧ v.statusCode = some loggedOut)) →
        ∃ code, code ≠ "" ∧
          getWhatsappQr users (some email) now (runUpdates loggedOut c (pre ++ u :: post))
            = .json 200 (.qr code)) ∧
      (c.currentQRCode = none → (∀ v ∈ pre, truthyStr v.qr = false) →
        getWhatsappQr users (some email) now (runUpdates loggedOut c pre)
          = .json 404 (.error "WhatsApp already connected")) := by
  have hroute : ∀ d, getWhatsappQr users (some email) now d = qrHandler d := by
    intro d
    simp [getWhatsappQr, hauth]
  simp only [hroute, runUpdates_append, runUpdates_cons]
  refine ⟨?_, ?_, ?_⟩
  · intro hopen hpost
    apply qrHandler_of_no_code
    apply runUpdates_keeps_no_code loggedOut post _ _ hpost
    rw [onConnectionUpdate_currentQRCode]
    simp [hopen, truthyStr]
  · intro hq hall
    apply qrHandler_of_code
    apply runUpdates_keeps_code loggedOut post _ _
      (fun v hv => hall v (List.mem_cons_of_mem _ hv))
    rw [onConnectionUpdate_currentQRCode]
    have hu := hall u (List.mem_cons_self _ _)
    rw [if_neg (by rintro (h1 | h2); exact hu.1 h1; exact hu.2 h2)]
    simp [hq]
  · intro hnone hpre
    apply qrHandler_of_no_code
    exact runUpdates_keeps_no_code loggedOut pre c (by simp [hnone, truthyStr]) hpre

theorem pairing_code_availability_witness :
    requireAuth sampleUsers (some "ann@example.org") 10 = none ∧
      truthyStr pairingCode.qr = true ∧
      (∃ code, code ≠ "" ∧
        getWhatsappQr sampleUsers (some "ann@example.org") 10
            (runUpdates 401 (run 401 [.start]) ([] ++ pairingCode :: [lostConnection]))
          = .json 200 (.qr code)) ∧
      getWhatsappQr sampleUsers (some "ann@example.org") 10
          (runUpdates 401 (run 401 [.start]) ([pairingCode] ++ connectionOpen :: []))
        = .json 404 (.error "WhatsApp already connected") :=
  ⟨by decide, by decide,
    (pairing_code_availability 401 sampleUsers "ann@example.org" 10 (run 401 [.start]) []
      [lostConnection] pairingCode (by decide)).2.1 (by decide) (by decide),
    (pairing_code_availability 401 sampleUsers "ann@example.org" 10 (run 401 [.start])
      [pairingCode] [] connectionOpen (by decide)).1 (by decide) (by decide)⟩

/-! ## Subscription window -/

/-- Claim C9 as stated fails at the boundary: at the very time the subscription of an active
account ends, a login with the right password establishes a session and `requireAuth` lets
the call through, although that time is not strictly earlier than `sessionExpires`. -/
theorem usable_at_expiry :
    sampleUsers "ann@example.org" = some sampleAccount ∧
    sampleAccount.sessionExpires = 1000 ∧
    (login sameText sampleUsers none "ann@example.org" "pw" 1000).session
      = some "ann@example.org" ∧
    (login sameText sampleUsers none "ann@example.org" "pw" 1000).response
      = .json 200 .success ∧
    requireAuth sampleUsers (some "ann@example.org") 1000 = none ∧
    ¬ ((1000 : Int) < sampleAccount.sessionExpires) := by
  decide

/-- Claim C9, amended: whenever a login with a password that `bcrypt.compare` accepts
establishes a session, or `requireAuth` lets a call of the account through, the account's
`isActive` is true and the time is not later than `sessionExpires`; and at the time
`sessionExpires` itself an active account passes both. -/
theorem usable_until_expiry (compare : String → String → Bool) (users : Users)
    (session : Option String) (email password : String) (now : Int) :
    ((login compare users session email password now).response = .json 200 .success →
        (login compare users session email password now).session = some email ∧
        ∃ user, users email = some user ∧ compare password user.password = true ∧
          user.isActive = true ∧ now ≤ user.sessionExpires) ∧
      (requireAuth users (some email) now = none →
        ∃ user, users email = some user ∧ user.isActive = true ∧
          now ≤ user.sessionExpires) ∧
      (∀ user, users email = some user → user.isActive = true →
        now = user.sessionExpires →
        requireAuth users (some email) now = none ∧
        (compare password user.password = true →
          (login compare users session email password now).session = some email ∧
          (login compare users session email password now).response
            = .json 200 .success)) := by
  refine ⟨?_, ?_, ?_⟩
  · intro h
    unfold login at h ⊢
    cases hu : users email with
    | none => simp [hu] at h
    | some user =>
      simp only [hu] at h ⊢
      by_cases hc : compare password user.password = true
      · by_cases ha : user.isActive = true
        · by_cases ht : now > user.sessionExpires
          · simp [hc, ha, ht] at h
          · refine ⟨by simp [hc, ha, ht], user, rfl, hc, ha, ?_⟩
            exact not_lt.mp ht
        · simp [hc, ha] at h
      · simp [hc] at h
  · intro h
    unfold requireAuth at h
    cases hu : users email with
    | none => simp [hu] at h
    | some user =>
      simp only [hu] at h
      by_cases ha : user.isActive = true
      · by_cases ht : user.sessionExpires < now
        · simp [ha, ht] at h
        · exact ⟨user, rfl, ha, not_lt.mp ht⟩
      · simp [ha] at h
  · intro user hu ha ht
    refine ⟨?_, ?_⟩
    · simp [requireAuth, hu, ha, ht]
    · intro hc
      simp [login, hu, ha, ht, hc]

theorem usable_until_expiry_witness :
    (login sameText sampleUsers none "ann@example.org" "pw" 500).response
        = .json 200 .success ∧
      requireAuth sampleUsers (some "ann@example.org") 500 = none ∧
      (∃ user, sampleUsers "ann@example.org" = some user ∧ user.isActive = true ∧
        (500 : Int) ≤ user.sessionExpires) :=
  ⟨by decide, by decide,
    (usable_until_expiry sameText sampleUsers none "ann@example.org" "pw" 500).2.1
      (by decide)⟩

end Backend
